import Mathlib

/-!
Shallow embedding of the honeytrap-agent startup core (`cmd/agent.go`):
the configuration resolver (`loadConfig`), the validator / option builder /
lifecycle orchestrator (`serve`), the flag defaults installed by `New`, and
the one-shot signal-to-cancellation listener goroutine.

External collaborators (the filesystem / TOML parser, `server.WithDataDir`,
`server.New`, `server.Run`) are modelled as oracle parameters: the embedded
functions are parametric in their outcomes, exactly as the Go code is
parametric in what those calls return.
-/

set_option autoImplicit false

namespace Honeytrap

/-- The mutable flag/option store of the CLI context: the four string
settings `serve` and `loadConfig` read and write via the `cli.Context`
(keys `server`, `remote-key`, `name`, `data`). -/
structure Store where
  server : String
  remoteKey : String
  name : String
  data : String
  deriving Repr, DecidableEq

/-- The parsed TOML document, before it is decoded into the Go config
struct: each of the four recognized keys is either present with a string
value or absent (`none`).  Decoding an absent key leaves the Go struct
field at its zero value, the empty string. -/
structure TomlConfig where
  server : Option String
  remoteKey : Option String
  dataDir : Option String
  name : Option String
  deriving Repr, DecidableEq

/-- Outcome of `os.Open` followed by `toml.DecodeReader` on a config path:
the open fails, the decode fails, or a parsed document is produced. -/
inductive FileResult where
  | openErr (msg : String)
  | parseErr (msg : String)
  | parsed (t : TomlConfig)
  deriving Repr, DecidableEq

/-- The error taxonomy of the startup phase.  Every constructor corresponds
to one `cli.NewExitError(..., 1)` site in `cmd/agent.go`, distinguished by
its message. -/
inductive AgentError where
  | configOpen (msg : String)
  | configParse (msg : String)
  | missingOption (msg : String)
  | dataDirErr (msg : String)
  | construction (msg : String)
  deriving Repr, DecidableEq

/-- `toml.DecodeReader(r, &config)` fills the four-field Go struct from the
parsed document; a key absent from the file leaves the field at its zero
value `""`.  The subsequent `c.Set` calls copy all four fields into the
store. -/
def decodeConfig (t : TomlConfig) : Store :=
  { server := t.server.getD ""
    remoteKey := t.remoteKey.getD ""
    name := t.name.getD ""
    data := t.dataDir.getD "" }

/-- `loadConfig` (`cmd/agent.go`, lines 106-139): reads the `config` flag;
if empty, returns nil at once; otherwise opens and decodes the file through
the oracle `fs`, failing with the corresponding exit error, and on success
overwrites all four store entries with the decoded values.  The returned
pair is (store after the call, error returned). -/
def loadConfig (cfgPath : String) (fs : String → FileResult) (store : Store) :
    Store × Option AgentError :=
  if cfgPath = "" then
    (store, none)
  else
    match fs cfgPath with
    | .openErr e =>
        (store, some (.configOpen ("Could not open config file: " ++ e)))
    | .parseErr e =>
        (store, some (.configParse ("Could not parse config file: " ++ e)))
    | .parsed t =>
        (decodeConfig t, none)

/-- An agent option function (`server.OptionFn`), identified by the
constructor site that produced it.  `withDataDir` carries the argument the
external `server.WithDataDir` succeeded on; since that collaborator is
opaque, the oracle below may return any `OptionFn` value. -/
inductive OptionFn where
  | withServer (v : String)
  | withKey (k : String)
  | withName (n : String)
  | withDataDir (d : String)
  | withToken
  deriving Repr, DecidableEq

/-- The validation and option-assembly prefix of `serve` (`cmd/agent.go`,
lines 48-82): check the four required settings in fixed order, failing fast
on the first empty one; resolve the data directory through the oracle
`wdd` (for `server.WithDataDir`); append the token option last.  The
option list is accumulated by appends exactly as in the source. -/
def serveOptions (store : Store) (wdd : String → Except String OptionFn) :
    Except AgentError (List OptionFn) :=
  if store.server = "" then
    .error (.missingOption "No target server set.")
  else if store.remoteKey = "" then
    .error (.missingOption "No remote key set.")
  else if store.name = "" then
    .error (.missingOption "No name set.")
  else if store.data = "" then
    .error (.missingOption "No data dir set.")
  else
    match wdd store.data with
    | .error err => .error (.dataDirErr err)
    | .ok fn =>
        .ok (((((([] : List OptionFn)
          ++ [OptionFn.withServer store.server])
          ++ [OptionFn.withKey store.remoteKey])
          ++ [OptionFn.withName store.name])
          ++ [fn])
          ++ [OptionFn.withToken])

/-- `serve` (`cmd/agent.go`, lines 47-104): assemble the options, construct
the agent through the oracle `newAgent` (for `server.New`), then start the
signal listener and block in `srvr.Run(ctx)`.  Whatever outcome `runRes`
the run call produces is discarded: `serve` returns nil. -/
def serve (store : Store) (wdd : String → Except String OptionFn)
    (newAgent : List OptionFn → Except String Unit)
    (runRes : Option String) : Except AgentError Unit :=
  match serveOptions store wdd with
  | .error e => .error e
  | .ok opts =>
      match newAgent opts with
      | .error e => .error (.construction e)
      | .ok _ =>
          -- srvr.Run(ctx) blocks; its outcome runRes is discarded; return nil
          .ok ()

/-- The command-line flags of the app, each either user-supplied or unset. -/
structure Flags where
  config : Option String
  server : Option String
  remoteKey : Option String
  data : Option String
  name : Option String
  deriving Repr, DecidableEq

/-- The store as populated by flag parsing before `loadConfig` runs, with
the defaults installed by `New` (`cmd/agent.go`, lines 160-182): `server`,
`remote-key`, `config` and `name` default to the empty string, `data`
defaults to the home-relative path. -/
def initialStore (f : Flags) : Store :=
  { server := f.server.getD ""
    remoteKey := f.remoteKey.getD ""
    name := f.name.getD ""
    data := f.data.getD "~/.honeytrap-agent" }

/-- The whole app run: `app.Before = loadConfig` executes first; if it
returns an error the action is skipped, otherwise `app.Action = serve`
consumes the (possibly overwritten) store. -/
def runApp (f : Flags) (fs : String → FileResult)
    (wdd : String → Except String OptionFn)
    (newAgent : List OptionFn → Except String Unit)
    (runRes : Option String) : Except AgentError Unit :=
  match loadConfig (f.config.getD "") fs (initialStore f) with
  | (_, some e) => .error e
  | (store, none) => serve store wdd newAgent runRes

/-- Process exit status: `cli.NewExitError(..., 1)` makes the app exit with
status 1 on any startup error; a nil return exits 0. -/
def exitCode : Except AgentError Unit → Nat
  | .ok _ => 0
  | .error _ => 1

/-- One of the two OS signals the listener subscribes to
(`signal.Notify(s, os.Interrupt)` and `signal.Notify(s, syscall.SIGTERM)`). -/
inductive Sig where
  | interrupt
  | sigterm
  deriving Repr, DecidableEq

/-- Observable state of the signal listener goroutine and the shared
cancellation context: how many times `cancel()` has been invoked, and
whether the goroutine has exited its single `select`. -/
structure SignalState where
  cancelCalls : Nat
  listenerExited : Bool
  deriving Repr, DecidableEq

/-- State at the moment the goroutine is started: no cancellation yet,
listener blocked in its `select`. -/
def startSignalState : SignalState :=
  { cancelCalls := 0, listenerExited := false }

/-- The cancellation context is cancelled once `cancel()` has been called
at least once (`context.WithCancel`; further calls are no-ops). -/
def ctxCancelled (st : SignalState) : Prop :=
  0 < st.cancelCalls

instance (st : SignalState) : Decidable (ctxCancelled st) := by
  unfold ctxCancelled; infer_instance

/-- Delivery of one OS signal to the listener (`cmd/agent.go`, lines
91-100): while the goroutine is blocked in its `select`, either signal
makes it call `cancel()` once and fall off the end of the goroutine; after
it has exited, a signal finds no receiver and changes nothing observable
about the context. -/
def deliverSignal (st : SignalState) (s : Sig) : SignalState :=
  if st.listenerExited then
    st
  else
    match s with
    | .interrupt => { cancelCalls := st.cancelCalls + 1, listenerExited := true }
    | .sigterm => { cancelCalls := st.cancelCalls + 1, listenerExited := true }

/-! ## Claim theorems -/

/-- C1: with a non-empty config path whose file opens and parses, every
store entry is set to the file's value unconditionally — absent keys
decode to the empty string and overwrite any flag value — and with an
empty path the flag-populated store is returned untouched. -/
theorem loadConfig_file_wins (cfgPath : String) (fs : String → FileResult)
    (store : Store) (t : TomlConfig)
    (hne : cfgPath ≠ "") (hfs : fs cfgPath = .parsed t) :
    loadConfig cfgPath fs store =
      ({ server := t.server.getD "", remoteKey := t.remoteKey.getD "",
         name := t.name.getD "", data := t.dataDir.getD "" }, none) ∧
    (∀ (fs2 : String → FileResult) (st2 : Store),
      loadConfig "" fs2 st2 = (st2, none)) := by
  refine ⟨?_, fun fs2 st2 => ?_⟩
  · simp [loadConfig, hne, hfs, decodeConfig]
  · simp [loadConfig]

/-- A config file that specifies only `server`. -/
def fsOnlyServer : String → FileResult :=
  fun _ => .parsed { server := some "10.0.0.1:1339", remoteKey := none,
                     dataDir := none, name := none }

/-- C1 witness: flag-supplied values for the other three keys are
overwritten with the empty string. -/
theorem loadConfig_file_wins_witness :
    loadConfig "agent.toml" fsOnlyServer
        { server := "s-flag", remoteKey := "k-flag", name := "n-flag", data := "d-flag" } =
      ({ server := "10.0.0.1:1339", remoteKey := "", name := "", data := "" }, none) :=
  (loadConfig_file_wins "agent.toml" fsOnlyServer
    { server := "s-flag", remoteKey := "k-flag", name := "n-flag", data := "d-flag" }
    { server := some "10.0.0.1:1339", remoteKey := none, dataDir := none, name := none }
    (by decide) rfl).1

/-- C5: whenever the resolver returns an error, the store it leaves behind
is exactly the input store — no partial application of a half-parsed file. -/
theorem loadConfig_error_leaves_store (cfgPath : String) (fs : String → FileResult)
    (store : Store) (e : AgentError)
    (h : (loadConfig cfgPath fs store).2 = some e) :
    (loadConfig cfgPath fs store).1 = store := by
  by_cases hc : cfgPath = ""
  · simp [loadConfig, hc]
  · cases hf : fs cfgPath <;> simp_all [loadConfig, hc, hf]

/-- A config path whose open fails. -/
def fsOpenFail : String → FileResult := fun _ => .openErr "permission denied"

/-- C5 witness: an open failure leaves the flag-populated store intact. -/
theorem loadConfig_error_leaves_store_witness :
    (loadConfig "agent.toml" fsOpenFail
        { server := "s", remoteKey := "k", name := "n", data := "d" }).1 =
      { server := "s", remoteKey := "k", name := "n", data := "d" } :=
  loadConfig_error_leaves_store "agent.toml" fsOpenFail
    { server := "s", remoteKey := "k", name := "n", data := "d" }
    (.configOpen ("Could not open config file: " ++ "permission denied")) rfl

/-- C7: with an empty config path the resolver succeeds, returns the store
unchanged, and never consults the filesystem (the result is the same for
every filesystem oracle). -/
theorem loadConfig_empty_path_noop (fs fs2 : String → FileResult) (store : Store) :
    loadConfig "" fs store = (store, none) ∧
    loadConfig "" fs store = loadConfig "" fs2 store := by
  exact ⟨by simp [loadConfig], by simp [loadConfig]⟩

/-- C2: when a required value is empty, startup fails with exit status 1
and the message of exactly the first missing setting in the fixed order
server, remote key, name, data directory; later checks and agent
construction (the universally quantified `newAgent`) are never reached. -/
theorem serve_missing_option_fail_fast (store : Store)
    (wdd : String → Except String OptionFn)
    (newAgent : List OptionFn → Except String Unit) (runRes : Option String) :
    (store.server = "" →
      serve store wdd newAgent runRes =
        .error (.missingOption "No target server set.") ∧
      exitCode (serve store wdd newAgent runRes) = 1) ∧
    (store.server ≠ "" → store.remoteKey = "" →
      serve store wdd newAgent runRes =
        .error (.missingOption "No remote key set.") ∧
      exitCode (serve store wdd newAgent runRes) = 1) ∧
    (store.server ≠ "" → store.remoteKey ≠ "" → store.name = "" →
      serve store wdd newAgent runRes =
        .error (.missingOption "No name set.") ∧
      exitCode (serve store wdd newAgent runRes) = 1) ∧
    (store.server ≠ "" → store.remoteKey ≠ "" → store.name ≠ "" → store.data = "" →
      serve store wdd newAgent runRes =
        .error (.missingOption "No data dir set.") ∧
      exitCode (serve store wdd newAgent runRes) = 1) := by
  refine ⟨?_, ?_, ?_, ?_⟩ <;> intros <;>
    simp_all [serve, serveOptions, exitCode]

/-- C2 witness: an empty remote key with a set server reports exactly the
remote-key message. -/
theorem serve_missing_option_fail_fast_witness :
    serve { server := "10.0.0.1:1339", remoteKey := "", name := "", data := "" }
        (fun d => .ok (.withDataDir d)) (fun _ => .ok ()) none =
      .error (.missingOption "No remote key set.") :=
  ((serve_missing_option_fail_fast
      { server := "10.0.0.1:1339", remoteKey := "", name := "", data := "" }
      (fun d => .ok (.withDataDir d)) (fun _ => .ok ()) none).2.1
    (by decide) rfl).1

/-- C3: with all four required settings non-empty and the data directory
resolving to an option `fn`, the option sequence handed to agent
construction is exactly the five options server, remote key, name, data
directory, token — with the token option last. -/
theorem serveOptions_fixed_order (store : Store)
    (wdd : String → Except String OptionFn) (fn : OptionFn)
    (hs : store.server ≠ "") (hk : store.remoteKey ≠ "")
    (hn : store.name ≠ "") (hd : store.data ≠ "")
    (hw : wdd store.data = .ok fn) :
    serveOptions store wdd =
      .ok [OptionFn.withServer store.server, OptionFn.withKey store.remoteKey,
           OptionFn.withName store.name, fn, OptionFn.withToken] ∧
    (serveOptions store wdd).map List.length = .ok 5 := by
  have h : serveOptions store wdd =
      .ok [OptionFn.withServer store.server, OptionFn.withKey store.remoteKey,
           OptionFn.withName store.name, fn, OptionFn.withToken] := by
    simp [serveOptions, hs, hk, hn, hd, hw]
  exact ⟨h, by rw [h]; rfl⟩

/-- C3 witness: a fully valid configuration yields the five options in
order. -/
theorem serveOptions_fixed_order_witness :
    serveOptions { server := "a", remoteKey := "b", name := "c", data := "d" }
        (fun dir => .ok (.withDataDir dir)) =
      .ok [OptionFn.withServer "a", OptionFn.withKey "b", OptionFn.withName "c",
           OptionFn.withDataDir "d", OptionFn.withToken] :=
  (serveOptions_fixed_order { server := "a", remoteKey := "b", name := "c", data := "d" }
    (fun dir => .ok (.withDataDir dir)) (.withDataDir "d")
    (by decide) (by decide) (by decide) (by decide) rfl).1

/-- C6: with the three earlier settings valid and a non-empty data
directory whose path resolution fails, startup fails with the data-dir
error wrapping the cause and exit status 1; the token option and agent
construction (`newAgent`, universally quantified) are never reached. -/
theorem serve_datadir_resolution_error (store : Store)
    (wdd : String → Except String OptionFn)
    (newAgent : List OptionFn → Except String Unit) (runRes : Option String)
    (e : String)
    (hs : store.server ≠ "") (hk : store.remoteKey ≠ "")
    (hn : store.name ≠ "") (hd : store.data ≠ "")
    (hw : wdd store.data = .error e) :
    serve store wdd newAgent runRes = .error (.dataDirErr e) ∧
    exitCode (serve store wdd newAgent runRes) = 1 := by
  simp [serve, serveOptions, exitCode, hs, hk, hn, hd, hw]

/-- C6 witness: a failing data-dir resolution surfaces its cause with no
construction attempted. -/
theorem serve_datadir_resolution_error_witness :
    serve { server := "a", remoteKey := "b", name := "c", data := "/bad//dir" }
        (fun _ => .error "mkdir /bad//dir: permission denied")
        (fun _ => .ok ()) none =
      .error (.dataDirErr "mkdir /bad//dir: permission denied") :=
  (serve_datadir_resolution_error
    { server := "a", remoteKey := "b", name := "c", data := "/bad//dir" }
    (fun _ => .error "mkdir /bad//dir: permission denied") (fun _ => .ok ()) none
    "mkdir /bad//dir: permission denied"
    (by decide) (by decide) (by decide) (by decide) rfl).1

/-- C9: once the options are assembled and agent construction succeeds,
`serve` returns success (exit status 0) whatever outcome the blocking run
call produces: the result is identical for any two run outcomes. -/
theorem serve_run_exit_zero (store : Store)
    (wdd : String → Except String OptionFn)
    (newAgent : List OptionFn → Except String Unit)
    (runRes runRes2 : Option String) (opts : List OptionFn)
    (hopts : serveOptions store wdd = .ok opts)
    (hna : newAgent opts = .ok ()) :
    serve store wdd newAgent runRes = .ok () ∧
    exitCode (serve store wdd newAgent runRes) = 0 ∧
    serve store wdd newAgent runRes = serve store wdd newAgent runRes2 := by
  simp [serve, exitCode, hopts, hna]

/-- C9 witness: a fully valid configuration with a run call that reports
an error still exits 0. -/
theorem serve_run_exit_zero_witness :
    exitCode (serve { server := "a", remoteKey := "b", name := "c", data := "d" }
        (fun dir => .ok (.withDataDir dir)) (fun _ => .ok ())
        (some "run failed: connection reset")) = 0 :=
  (serve_run_exit_zero { server := "a", remoteKey := "b", name := "c", data := "d" }
    (fun dir => .ok (.withDataDir dir)) (fun _ => .ok ())
    (some "run failed: connection reset") none
    [OptionFn.withServer "a", OptionFn.withKey "b", OptionFn.withName "c",
     OptionFn.withDataDir "d", OptionFn.withToken] rfl rfl).2.1

/-- C8: from the state where the listener is blocked, either signal makes
it call `cancel` exactly once, cancelling the context, and exit; the two
signals behave identically, and a second signal delivered afterwards
changes nothing observable. -/
theorem signal_cancel_exactly_once :
    (∀ s : Sig, deliverSignal startSignalState s =
        { cancelCalls := 1, listenerExited := true } ∧
      ctxCancelled (deliverSignal startSignalState s)) ∧
    (∀ s1 s2 : Sig,
      deliverSignal startSignalState s1 = deliverSignal startSignalState s2) ∧
    (∀ s1 s2 : Sig,
      deliverSignal (deliverSignal startSignalState s1) s2 =
        deliverSignal startSignalState s1) := by
  refine ⟨fun s => ?_, fun s1 s2 => ?_, fun s1 s2 => ?_⟩
  · cases s <;> exact ⟨rfl, by decide⟩
  · cases s1 <;> cases s2 <;> rfl
  · cases s1 <;> cases s2 <;> rfl

/-- C4: with a non-empty config path, an open failure yields the
config-open error wrapping the underlying message and a decode failure the
config-parse error, each with exit status 1; the action (and hence agent
construction via the universally quantified `newAgent`) is never run. -/
theorem runApp_config_file_errors (f : Flags) (fs : String → FileResult)
    (wdd : String → Except String OptionFn)
    (newAgent : List OptionFn → Except String Unit) (runRes : Option String)
    (p : String) (hp : f.config = some p) (hne : p ≠ "") :
    (∀ e, fs p = .openErr e →
      runApp f fs wdd newAgent runRes =
        .error (.configOpen ("Could not open config file: " ++ e)) ∧
      exitCode (runApp f fs wdd newAgent runRes) = 1) ∧
    (∀ e, fs p = .parseErr e →
      runApp f fs wdd newAgent runRes =
        .error (.configParse ("Could not parse config file: " ++ e)) ∧
      exitCode (runApp f fs wdd newAgent runRes) = 1) := by
  refine ⟨fun e he => ?_, fun e he => ?_⟩ <;>
    simp [runApp, loadConfig, exitCode, hp, hne, he]

/-- Flags naming a config file, with every other setting supplied. -/
def flagsAllSet : Flags :=
  { config := some "agent.toml", server := some "s", remoteKey := some "k",
    data := some "d", name := some "n" }

/-- C4 witness: an unreadable config file aborts the run with the
config-open error. -/
theorem runApp_config_file_errors_witness :
    runApp flagsAllSet fsOpenFail (fun dir => .ok (.withDataDir dir))
        (fun _ => .ok ()) none =
      .error (.configOpen "Could not open config file: permission denied") :=
  ((runApp_config_file_errors flagsAllSet fsOpenFail
      (fun dir => .ok (.withDataDir dir)) (fun _ => .ok ()) none
      "agent.toml" rfl (by decide)).1 "permission denied" rfl).1

/-- If `serve` reports a missing-option error, the error originates in the
validation prefix: `serveOptions` reports the same error. -/
theorem serve_missingOption_of (store : Store)
    (wdd : String → Except String OptionFn)
    (newAgent : List OptionFn → Except String Unit) (runRes : Option String)
    (m : String)
    (h : serve store wdd newAgent runRes = .error (.missingOption m)) :
    serveOptions store wdd = .error (.missingOption m) := by
  unfold serve at h
  cases hso : serveOptions store wdd with
  | error e => rw [hso] at h; simpa using h
  | ok opts =>
      rw [hso] at h
      cases hna : newAgent opts <;> simp [hna] at h

/-- The data-dir missing-option error is reported only when the resolved
data directory is the empty string. -/
theorem serveOptions_noDataDir_imp (store : Store)
    (wdd : String → Except String OptionFn)
    (h : serveOptions store wdd = .error (.missingOption "No data dir set.")) :
    store.data = "" := by
  by_contra hd
  unfold serveOptions at h
  by_cases h1 : store.server = ""
  · simp [h1] at h
  by_cases h2 : store.remoteKey = ""
  · simp [h1, h2] at h
  by_cases h3 : store.name = ""
  · simp [h1, h2, h3] at h
  cases hw : wdd store.data <;> simp [h1, h2, h3, hd, hw] at h

/-- The initial store's data entry can only be empty if the data flag was
explicitly set to the empty string, because its default is non-empty. -/
theorem data_flag_explicit_empty (f : Flags)
    (hd : (initialStore f).data = "") : f.data = some "" := by
  have hd2 : f.data.getD "~/.honeytrap-agent" = "" := hd
  cases hv : f.data with
  | none => rw [hv] at hd2; exact absurd hd2 (by decide)
  | some d =>
      rw [hv] at hd2
      simp only [Option.getD_some] at hd2
      exact congrArg some hd2

/-- A config file that omits the data-dir key. -/
def fsNoDataDir : String → FileResult :=
  fun _ => .parsed { server := some "s", remoteKey := some "k",
                     dataDir := none, name := some "n" }

/-- C10: since the data flag defaults to the non-empty home-relative path,
the data-dir missing error cannot occur without a config file unless the
flag is explicitly set empty; whenever it does occur, either the flag was
explicitly empty with no config file, or a config file was supplied whose
data-dir field decoded to the empty string; and both enabling situations
do in fact reach the error. -/
theorem runApp_noDataDir_reachability :
    (∀ (f : Flags) (fs : String → FileResult)
        (wdd : String → Except String OptionFn)
        (newAgent : List OptionFn → Except String Unit) (runRes : Option String),
      f.config.getD "" = "" → f.data ≠ some "" →
      runApp f fs wdd newAgent runRes ≠
        .error (.missingOption "No data dir set.")) ∧
    (∀ (f : Flags) (fs : String → FileResult)
        (wdd : String → Except String OptionFn)
        (newAgent : List OptionFn → Except String Unit) (runRes : Option String),
      runApp f fs wdd newAgent runRes =
          .error (.missingOption "No data dir set.") →
      (f.config.getD "" = "" ∧ f.data = some "") ∨
      (∃ p t, f.config = some p ∧ p ≠ "" ∧ fs p = .parsed t ∧
        t.dataDir.getD "" = "")) ∧
    (runApp flagsAllSet fsNoDataDir (fun dir => .ok (.withDataDir dir))
        (fun _ => .ok ()) none =
      .error (.missingOption "No data dir set.")) ∧
    (runApp { config := none, server := some "s", remoteKey := some "k",
              data := some "", name := some "n" }
        fsOpenFail (fun dir => .ok (.withDataDir dir)) (fun _ => .ok ()) none =
      .error (.missingOption "No data dir set.")) := by
  refine ⟨?_, ?_, rfl, rfl⟩
  · intro f fs wdd newAgent runRes hcfg hflag h
    have hl : loadConfig (f.config.getD "") fs (initialStore f) =
        (initialStore f, none) := by
      rw [hcfg, loadConfig]; simp
    rw [runApp, hl] at h
    exact hflag (data_flag_explicit_empty f
      (serveOptions_noDataDir_imp _ _ (serve_missingOption_of _ _ _ _ _ h)))
  · intro f fs wdd newAgent runRes h
    by_cases hcfg : f.config.getD "" = ""
    · left
      have hl : loadConfig (f.config.getD "") fs (initialStore f) =
          (initialStore f, none) := by
        rw [hcfg, loadConfig]; simp
      rw [runApp, hl] at h
      exact ⟨hcfg, data_flag_explicit_empty f
        (serveOptions_noDataDir_imp _ _ (serve_missingOption_of _ _ _ _ _ h))⟩
    · right
      cases hc : f.config with
      | none => exact absurd (by rw [hc]; rfl) hcfg
      | some p =>
          rw [hc] at hcfg
          simp only [Option.getD_some] at hcfg
          rw [runApp, hc] at h
          simp only [Option.getD_some] at h
          cases hf : fs p with
          | openErr e =>
              rw [loadConfig, if_neg hcfg, hf] at h
              simp at h
          | parseErr e =>
              rw [loadConfig, if_neg hcfg, hf] at h
              simp at h
          | parsed t =>
              rw [loadConfig, if_neg hcfg, hf] at h
              exact ⟨p, t, rfl, hcfg, hf,
                serveOptions_noDataDir_imp _ _ (serve_missingOption_of _ _ _ _ _ h)⟩

/-- C10 witness: with no config file and the data flag left unset, the
data-dir missing error cannot be produced. -/
theorem runApp_noDataDir_reachability_witness :
    runApp { config := none, server := some "", remoteKey := none,
             data := none, name := none }
        fsOpenFail (fun dir => .ok (.withDataDir dir)) (fun _ => .ok ()) none ≠
      .error (.missingOption "No data dir set.") :=
  runApp_noDataDir_reachability.1
    { config := none, server := some "", remoteKey := none,
      data := none, name := none }
    fsOpenFail (fun dir => .ok (.withDataDir dir)) (fun _ => .ok ()) none
    rfl (by decide)

end Honeytrap
